import Mathlib

/-!
Verification of the teacher-planner backend (src/backend), centred on the
cycle-day calculation and week-assembly code in `routers/lessons.py` and the
settings store in `models.py` / `routers/settings.py`.

Embedding conventions:
* Calendar dates are modelled as proleptic-Gregorian ordinals (`Int`), the
  same encoding as Python `date.toordinal()`: ordinal 1 is 0001-01-01, which
  is a Monday.  `weekday` below therefore agrees with Python
  `date.weekday()` (0 = Monday .. 6 = Sunday).
* Python `%` and `//` are floored; they are modelled by `Int.fmod` and
  `Int.fdiv`, which implement exactly the floored convention.
* Database rows become structures whose fields are exactly the mapped
  columns of `models.py`; fallible endpoint code returns `Except`.
-/

namespace TeacherPlanner

/-- Python `date.weekday()`: 0 = Monday .. 6 = Sunday.  Since ordinal 1 is a
Monday, the weekday of ordinal `d` is `(d - 1) mod 7` (floored mod, always
in `[0, 7)`). -/
def weekday (d : Int) : Int := (d - 1).fmod 7

/-- Gregorian leap-year rule, as used by Python `datetime.date`. -/
def isLeapYear (y : Int) : Bool :=
  (y.fmod 4 == 0 && y.fmod 100 != 0) || (y.fmod 400 == 0)

/-- Days before the first of month `m` in a non-leap year. -/
def daysBeforeMonth (m : Int) : Int :=
  List.getD [0, 31, 59, 90, 120, 151, 181, 212, 243, 273, 304, 334]
    (m - 1).toNat 0

/-- `toordinal y m d` is the proleptic-Gregorian ordinal of the calendar
date `y-m-d`, matching Python `date(y, m, d).toordinal()`:
`toordinal 1 1 1 = 1`. -/
def toordinal (y m d : Int) : Int :=
  365 * (y - 1) + (y - 1).fdiv 4 - (y - 1).fdiv 100 + (y - 1).fdiv 400
    + daysBeforeMonth m
    + (if 2 < m && isLeapYear y then 1 else 0)
    + d

/-- The forward-walking loop of `count_working_days_between`
(routers/lessons.py lines 102-113): starting from `current`, advance one
calendar day at a time `fuel` times, counting each reached day whose
weekday is Monday-Friday (`weekday < 5`). -/
def working_days_loop (current : Int) : Nat → Int
  | 0 => 0
  | fuel + 1 =>
    (if weekday (current + 1) < 5 then 1 else 0)
      + working_days_loop (current + 1) fuel

/-- `count_working_days_between` (routers/lessons.py lines 72-113): if
`end_date < start_date` the arguments are swapped and the count negated;
if they are equal the loop runs zero times and the count is 0; otherwise
the loop walks from `start_date` (exclusive) to `end_date` (inclusive),
i.e. `(end_date - start_date)` steps. -/
def count_working_days_between (start_date end_date : Int) : Int :=
  if end_date < start_date then
    -(working_days_loop end_date (start_date - end_date).toNat)
  else
    working_days_loop start_date (end_date - start_date).toNat

/-- `calculate_cycle_day` (routers/lessons.py lines 116-146):
`(working_days % cycle_length) + 1` with Python's floored `%`
(`Int.fmod`). -/
def calculate_cycle_day (target_date cycle_start_date : Int)
    (cycle_length : Int) : Int :=
  (count_working_days_between cycle_start_date target_date).fmod cycle_length
    + 1

/-- `get_week_label` (routers/lessons.py lines 149-168):
`midpoint = cycle_length // 2` (Python floored `//`, `Int.fdiv`);
`is_week_a = cycle_day <= midpoint`; the label is "Week A" or "Week B". -/
def get_week_label (cycle_day : Int) (cycle_length : Int) : Bool × String :=
  let midpoint := cycle_length.fdiv 2
  let is_week_a : Bool := decide (cycle_day ≤ midpoint)
  (is_week_a, if is_week_a then "Week A" else "Week B")

/-- `get_weekday_name` (routers/lessons.py lines 171-174): index into the
fixed list of names.  The argument is always a value of `weekday`, hence in
`[0, 7)`, so the out-of-range default is unreachable. -/
def get_weekday_name (w : Int) : String :=
  List.getD
    ["Monday", "Tuesday", "Wednesday", "Thursday", "Friday", "Saturday",
      "Sunday"] w.toNat ""

/-- A `Lesson` row (models.py lines 199-316): the columns the timetable
endpoint reads.  The nested note/resource/todo collections are opaque to
the week-assembly code and are omitted. -/
structure Lesson where
  id : Int
  date : Int
  period : Int
  subject_id : Int
  title : Option String := none
  deriving DecidableEq

/-- The sort key of the lesson query (routers/lessons.py line 261,
`order_by(Lesson.date, Lesson.period)`): lexicographic on (date, period). -/
def lessonLE (a b : Lesson) : Prop :=
  a.date < b.date ∨ (a.date = b.date ∧ a.period ≤ b.period)

instance : DecidableRel lessonLE := fun a b =>
  inferInstanceAs
    (Decidable (a.date < b.date ∨ (a.date = b.date ∧ a.period ≤ b.period)))

instance : IsTotal Lesson lessonLE :=
  ⟨fun a b => by unfold lessonLE; omega⟩

instance : IsTrans Lesson lessonLE :=
  ⟨fun a b c hab hbc => by unfold lessonLE at hab hbc ⊢; omega⟩

/-- `DayInfo` (schemas.py lines 275-315). -/
structure DayInfo where
  date : Int
  weekday : Int
  weekday_name : String
  cycle_day : Int
  is_week_a : Bool
  week_label : String
  lessons : List Lesson
  deriving DecidableEq

/-- `WeekTimetable` (schemas.py lines 318-341). -/
structure WeekTimetable where
  week_start : Int
  week_end : Int
  primary_week : String
  periods_per_day : Int
  days : List DayInfo
  deriving DecidableEq

/-- Steps 3-4 of `get_week_timetable` (routers/lessons.py lines 251-273):
the lesson query filtered to `[week_start, week_start + 4]` and ordered by
`(date, period)`.  SQL prescribes only that the result is some ordering of
the filtered rows that is sorted by the key; insertion sort realises one
such ordering.  The subsequent `lessons_by_date` dictionary groups this
list by date preserving encounter order, so the group for a date `d` is
exactly the sublist of this sorted list whose entries have date `d`. -/
def week_lessons_sorted (lessons : List Lesson) (week_start : Int) :
    List Lesson :=
  (lessons.filter fun l =>
      decide (week_start ≤ l.date) && decide (l.date ≤ week_start + 4)
    ).insertionSort lessonLE

/-- One iteration of the day loop in `get_week_timetable`
(routers/lessons.py lines 281-311): build the `DayInfo` for
`week_start + i`, either from the cycle calculation (when
`cycle_start_date` is set) or from the unconfigured fallback
(`cycle_day = 0`, `is_week_a = True`, `week_label = "Not configured"`).
`lessons_by_date.get(current_date, [])` is the date-`current_date` group
of the sorted week lessons. -/
def mkDayInfo (cycle_start_date : Option Int) (cycle_length : Int)
    (week_lessons : List Lesson) (week_start : Int) (i : Nat) : DayInfo :=
  let current_date : Int := week_start + (i : Int)
  let day_lessons := week_lessons.filter fun l => l.date == current_date
  match cycle_start_date with
  | some csd =>
    let cycle_day := calculate_cycle_day current_date csd cycle_length
    let wl := get_week_label cycle_day cycle_length
    { date := current_date
      weekday := weekday current_date
      weekday_name := get_weekday_name (weekday current_date)
      cycle_day := cycle_day
      is_week_a := wl.1
      week_label := wl.2
      lessons := day_lessons }
  | none =>
    { date := current_date
      weekday := weekday current_date
      weekday_name := get_weekday_name (weekday current_date)
      cycle_day := 0
      is_week_a := true
      week_label := "Not configured"
      lessons := day_lessons }

/-- Steps 2-6 of `get_week_timetable` (routers/lessons.py lines 236-322),
after the settings lookup has produced `cycle_start_date`, `cycle_length`
and `periods_per_day`: snap `start_date` back to Monday, fetch and group
the week's lessons, loop `i = 0..4` building each day (recording Monday's
label as `primary_week` when `i == 0`), and assemble the response. -/
def build_week (cycle_start_date : Option Int) (cycle_length : Int)
    (periods_per_day : Int) (lessons : List Lesson) (start_date : Int) :
    WeekTimetable :=
  let days_since_monday := weekday start_date
  let week_start := start_date - days_since_monday
  let week_end := week_start + 4
  let week_lessons := week_lessons_sorted lessons week_start
  let result := (List.range 5).foldl
    (fun acc i =>
      let day := mkDayInfo cycle_start_date cycle_length week_lessons
        week_start i
      (acc.1 ++ [day], if i == 0 then day.week_label else acc.2))
    (([] : List DayInfo), "Unknown")
  { week_start := week_start
    week_end := week_end
    primary_week := result.2
    periods_per_day := periods_per_day
    days := result.1 }

/-- The `Settings` row (models.py lines 44-85).  Its mapped columns are
exactly `id`, `periods_per_day`, `current_year`, `current_semester` and
`cycle_length`; the model defines NO `cycle_start_date` column, although
schemas.py and both routers refer to one. -/
structure SettingsRow where
  id : Int := 1
  periods_per_day : Int := 6
  current_year : Int := 2025
  current_semester : Int := 1
  cycle_length : Int := 10
  deriving DecidableEq

/-- `SettingsUpdate` (schemas.py lines 37-46): all fields optional;
`none` models "not provided" (Pydantic `exclude_unset`). -/
structure SettingsUpdate where
  periods_per_day : Option Int := none
  current_year : Option Int := none
  current_semester : Option Int := none
  cycle_length : Option Int := none
  cycle_start_date : Option Int := none

/-- `SettingsResponse` (schemas.py lines 26-58). -/
structure SettingsResponse where
  id : Int
  periods_per_day : Int
  current_year : Int
  current_semester : Int
  cycle_length : Int
  cycle_start_date : Option Int
  deriving DecidableEq

/-- `get_or_create_settings` (routers/settings.py lines 48-71): the stored
single row, or a fresh default row when the table is empty. -/
def get_or_create_settings (store : Option SettingsRow) : SettingsRow :=
  store.getD {}

/-- The field-update loop of `update_settings` (routers/settings.py lines
135-143): `setattr` each provided field on the row, then commit.  The four
mapped columns are persisted.  `setattr(settings, "cycle_start_date", v)`
writes only a transient Python instance attribute, because the `Settings`
model has no `cycle_start_date` column (models.py lines 44-85); the commit
therefore persists nothing for it and the value never reaches the stored
row. -/
def apply_settings_update (s : SettingsRow) (u : SettingsUpdate) :
    SettingsRow :=
  { s with
    periods_per_day := u.periods_per_day.getD s.periods_per_day
    current_year := u.current_year.getD s.current_year
    current_semester := u.current_semester.getD s.current_semester
    cycle_length := u.cycle_length.getD s.cycle_length }

/-- `update_settings` (routers/settings.py lines 98-145) as a transition on
the persisted single-row store. -/
def update_settings (store : Option SettingsRow) (u : SettingsUpdate) :
    Option SettingsRow :=
  some (apply_settings_update (get_or_create_settings store) u)

/-- `get_settings` (routers/settings.py lines 77-92) observed from a fresh
session: the response is serialised from the stored row with Pydantic
`from_attributes`.  The row has no `cycle_start_date` attribute, so the
response field falls back to the schema default `None`. -/
def get_settings (store : Option SettingsRow) : SettingsResponse :=
  let s := get_or_create_settings store
  { id := s.id
    periods_per_day := s.periods_per_day
    current_year := s.current_year
    current_semester := s.current_semester
    cycle_length := s.cycle_length
    cycle_start_date := none }

/-- The `get_week_timetable` endpoint (routers/lessons.py lines 181-322)
including its settings lookup (lines 229-234).  When no settings row
exists, the defaults `cycle_start_date = None`, `cycle_length = 10`,
`periods_per_day = 6` are used and the week is built.  When a settings row
exists, line 232 evaluates `settings.cycle_start_date`; the `Settings`
model defines no such attribute (models.py lines 44-85), so the access
raises `AttributeError` and the request fails instead of building a
week. -/
def get_week_timetable (store : Option SettingsRow)
    (lessons : List Lesson) (start_date : Int) :
    Except String WeekTimetable :=
  match store with
  | some _ =>
    Except.error
      "AttributeError: Settings object has no attribute cycle_start_date"
  | none => Except.ok (build_week none 10 6 lessons start_date)

/-- Concrete lessons used to instantiate the week-assembly theorems:
two in the week of Monday 2025-01-27 (ordinal 739278) and one far outside
it. -/
def demoLessons : List Lesson :=
  [{ id := 1, date := 739279, period := 2, subject_id := 1 },
   { id := 2, date := 739278, period := 1, subject_id := 1 },
   { id := 3, date := 739300, period := 1, subject_id := 1 }]

/-- The Monday `DayInfo` produced by `build_week` for `demoLessons` in the
unconfigured state, requested from Thursday 2025-01-30 (ordinal 739281). -/
def demoDay0 : DayInfo :=
  { date := 739278
    weekday := 0
    weekday_name := "Monday"
    cycle_day := 0
    is_week_a := true
    week_label := "Not configured"
    lessons := [{ id := 2, date := 739278, period := 1, subject_id := 1 }] }

/-! ## Helper lemmas -/

/-- `Int.fmod` by the positive modulus 7 agrees with the Euclidean `%`. -/
theorem fmod_seven_eq (a : Int) : a.fmod 7 = a % 7 :=
  Int.fmod_eq_emod a (by norm_num)

theorem weekday_emod (d : Int) : weekday d = (d - 1) % 7 := fmod_seven_eq _

theorem weekday_nonneg (d : Int) : 0 ≤ weekday d :=
  Int.fmod_nonneg' _ (by norm_num)

theorem weekday_monday (sd : Int) : weekday (sd - weekday sd) = 0 := by
  simp only [weekday_emod]; omega

/-- `build_week` unfolded: the 5-iteration loop produces the five
`mkDayInfo` days and Monday's label as `primary_week`. -/
theorem build_week_eq (cso : Option Int) (cl pp : Int)
    (lessons : List Lesson) (sd : Int) :
    build_week cso cl pp lessons sd =
      { week_start := sd - weekday sd
        week_end := sd - weekday sd + 4
        primary_week :=
          (mkDayInfo cso cl (week_lessons_sorted lessons (sd - weekday sd))
            (sd - weekday sd) 0).week_label
        periods_per_day := pp
        days :=
          [mkDayInfo cso cl (week_lessons_sorted lessons (sd - weekday sd))
             (sd - weekday sd) 0,
           mkDayInfo cso cl (week_lessons_sorted lessons (sd - weekday sd))
             (sd - weekday sd) 1,
           mkDayInfo cso cl (week_lessons_sorted lessons (sd - weekday sd))
             (sd - weekday sd) 2,
           mkDayInfo cso cl (week_lessons_sorted lessons (sd - weekday sd))
             (sd - weekday sd) 3,
           mkDayInfo cso cl (week_lessons_sorted lessons (sd - weekday sd))
             (sd - weekday sd) 4] } := rfl

theorem mkDayInfo_date (cso : Option Int) (cl : Int) (wl : List Lesson)
    (ws : Int) (i : Nat) :
    (mkDayInfo cso cl wl ws i).date = ws + (i : Int) := by
  cases cso <;> rfl

theorem mkDayInfo_weekday (cso : Option Int) (cl : Int) (wl : List Lesson)
    (ws : Int) (i : Nat) :
    (mkDayInfo cso cl wl ws i).weekday = weekday (ws + (i : Int)) := by
  cases cso <;> rfl

theorem mkDayInfo_lessons (cso : Option Int) (cl : Int) (wl : List Lesson)
    (ws : Int) (i : Nat) :
    (mkDayInfo cso cl wl ws i).lessons
      = wl.filter fun l => l.date == ws + (i : Int) := by
  cases cso <;> rfl

/-! ## Claims -/

/-- C7: `count_working_days_between` is antisymmetric,
`count_working_days_between a b = -count_working_days_between b a` for all
date pairs, and in particular `count_working_days_between d d = 0`. -/
theorem count_working_days_antisymmetric (a b : Int) :
    count_working_days_between a b = -count_working_days_between b a ∧
    count_working_days_between a a = 0 := by
  constructor
  · unfold count_working_days_between
    rcases lt_trichotomy a b with h | h | h
    · rw [if_neg (by omega), if_pos h]; omega
    · subst h
      rw [if_neg (by omega)]
      simp [working_days_loop]
    · rw [if_pos h, if_neg (by omega)]
  · unfold count_working_days_between
    rw [if_neg (by omega)]
    simp [working_days_loop]

/-- C8: the spec's worked examples.  With cycle start Monday 2025-01-27
(ordinal 739278) and cycle length 10: for target Monday 2025-02-03 the
working-day count is 5, the cycle day 6 and the label "Week B"
(first half false); for the start date itself the cycle day is 1 and the
label "Week A".  The weekday equations confirm both dates are Mondays. -/
theorem worked_examples :
    weekday (toordinal 2025 1 27) = 0 ∧
    weekday (toordinal 2025 2 3) = 0 ∧
    count_working_days_between (toordinal 2025 1 27) (toordinal 2025 2 3)
        = 5 ∧
    calculate_cycle_day (toordinal 2025 2 3) (toordinal 2025 1 27) 10 = 6 ∧
    get_week_label 6 10 = (false, "Week B") ∧
    calculate_cycle_day (toordinal 2025 1 27) (toordinal 2025 1 27) 10
        = 1 ∧
    get_week_label 1 10 = (true, "Week A") := by
  decide

/-- C1: for any target date, any cycle start date and any
`cycle_length ≥ 1`, `calculate_cycle_day` returns
`(count_working_days_between cycle_start target) mod cycle_length + 1`
with a floored modulo (`Int.fmod`), and the result lies in
`[1, cycle_length]` — including when the target precedes the cycle start
and the working-day count is negative. -/
theorem calculate_cycle_day_in_range (target cycle_start cyl : Int)
    (hcl : 1 ≤ cyl) :
    calculate_cycle_day target cycle_start cyl
        = (count_working_days_between cycle_start target).fmod cyl + 1 ∧
    1 ≤ calculate_cycle_day target cycle_start cyl ∧
    calculate_cycle_day target cycle_start cyl ≤ cyl := by
  have h0 : (0 : Int) < cyl := by omega
  have h1 := Int.fmod_nonneg' (count_working_days_between cycle_start target) h0
  have h2 := Int.fmod_lt_of_pos (count_working_days_between cycle_start target) h0
  refine ⟨rfl, ?_, ?_⟩ <;> unfold calculate_cycle_day <;> omega

/-- Witness for C1 at a target (2025-01-20) one week before the cycle
start (2025-01-27), where the working-day count is negative. -/
theorem calculate_cycle_day_in_range_witness :
    1 ≤ (10 : Int) ∧
    (calculate_cycle_day (toordinal 2025 1 20) (toordinal 2025 1 27) 10
        = (count_working_days_between (toordinal 2025 1 27)
            (toordinal 2025 1 20)).fmod 10 + 1 ∧
      1 ≤ calculate_cycle_day (toordinal 2025 1 20) (toordinal 2025 1 27) 10 ∧
      calculate_cycle_day (toordinal 2025 1 20) (toordinal 2025 1 27) 10
        ≤ 10) :=
  ⟨by norm_num,
    calculate_cycle_day_in_range (toordinal 2025 1 20) (toordinal 2025 1 27)
      10 (by norm_num)⟩

/-- C4 counterexample: at `cycle_length = 1` the cycle-day range is just
`{1}`, the midpoint is `1 / 2 = 0`, and `is_week_a` is already `false` at
cycle day 1 (the label is "Week B" throughout), so `is_week_a` is never
true on `[1, cycle_length]` and no true-to-false transition occurs —
refuting the claim for `cycle_length = 1`. -/
theorem half_label_length_one_no_transition :
    (get_week_label 1 1).1 = false ∧ (get_week_label 1 1).2 = "Week B" :=
  ⟨rfl, rfl⟩

/-- C4 (amended: for `cycle_length ≥ 2`; at `cycle_length = 1` the flag is
false on the whole range and never transitions): `get_week_label` computes
`is_week_a = (cycle_day ≤ cycle_length.fdiv 2)`; the flag is true at 1,
true up to the midpoint, false from `midpoint + 1` (which lies in
`[1, cycle_length]`) to `cycle_length`, and the unique true-to-false
switch among consecutive cycle days happens at
`cycle_day = cycle_length.fdiv 2 + 1`. -/
theorem half_label_single_transition (cyl : Int) (hcl : 2 ≤ cyl) :
    (∀ d : Int, (get_week_label d cyl).1 = decide (d ≤ cyl.fdiv 2)) ∧
    (get_week_label 1 cyl).1 = true ∧
    (∀ d : Int, 1 ≤ d → d ≤ cyl.fdiv 2 →
        (get_week_label d cyl).1 = true) ∧
    (∀ d : Int, cyl.fdiv 2 < d → d ≤ cyl →
        (get_week_label d cyl).1 = false) ∧
    1 ≤ cyl.fdiv 2 + 1 ∧ cyl.fdiv 2 + 1 ≤ cyl ∧
    (get_week_label (cyl.fdiv 2) cyl).1 = true ∧
    (get_week_label (cyl.fdiv 2 + 1) cyl).1 = false ∧
    (∀ d : Int, 1 ≤ d → d < cyl →
        (get_week_label d cyl).1 = true →
        (get_week_label (d + 1) cyl).1 = false →
        d + 1 = cyl.fdiv 2 + 1) := by
  have hfd : cyl.fdiv 2 = cyl / 2 := Int.fdiv_eq_ediv _ (by norm_num)
  have hlabel : ∀ d : Int,
      (get_week_label d cyl).1 = decide (d ≤ cyl.fdiv 2) := fun _ => rfl
  refine ⟨hlabel, ?_, ?_, ?_, ?_, ?_, ?_, ?_, ?_⟩
  · rw [hlabel, decide_eq_true_eq, hfd]; omega
  · intro d _ h2
    rw [hlabel, decide_eq_true_eq]
    exact h2
  · intro d h1 _
    rw [hlabel, decide_eq_false_iff_not]
    omega
  · rw [hfd]; omega
  · rw [hfd]; omega
  · rw [hlabel, decide_eq_true_eq]
  · rw [hlabel, decide_eq_false_iff_not]; omega
  · intro d _ _ h3 h4
    rw [hlabel, decide_eq_true_eq] at h3
    rw [hlabel, decide_eq_false_iff_not] at h4
    omega

/-- Witness for C4 (amended) at `cycle_length = 10`. -/
theorem half_label_single_transition_witness :
    2 ≤ (10 : Int) ∧
    ((∀ d : Int, (get_week_label d 10).1 = decide (d ≤ (10 : Int).fdiv 2)) ∧
      (get_week_label 1 10).1 = true ∧
      (∀ d : Int, 1 ≤ d → d ≤ (10 : Int).fdiv 2 →
          (get_week_label d 10).1 = true) ∧
      (∀ d : Int, (10 : Int).fdiv 2 < d → d ≤ 10 →
          (get_week_label d 10).1 = false) ∧
      1 ≤ (10 : Int).fdiv 2 + 1 ∧ (10 : Int).fdiv 2 + 1 ≤ 10 ∧
      (get_week_label ((10 : Int).fdiv 2) 10).1 = true ∧
      (get_week_label ((10 : Int).fdiv 2 + 1) 10).1 = false ∧
      (∀ d : Int, 1 ≤ d → d < 10 →
          (get_week_label d 10).1 = true →
          (get_week_label (d + 1) 10).1 = false →
          d + 1 = (10 : Int).fdiv 2 + 1)) :=
  ⟨by norm_num, half_label_single_transition 10 (by norm_num)⟩

/-- C6: with `cycle_start_date` absent, `build_week` is total and every
one of the five `DayInfo`s carries the explicit fallback `cycle_day = 0`,
`is_week_a = true`, `week_label = "Not configured"`. -/
theorem build_week_unconfigured_fallback (cl pp : Int)
    (lessons : List Lesson) (sd : Int) :
    (build_week none cl pp lessons sd).days.map
        (fun d => (d.cycle_day, d.is_week_a, d.week_label))
      = List.replicate 5 (0, true, "Not configured") := rfl

/-- C9: `primary_week` of the returned `WeekTimetable` is always the
`week_label` computed for the first (Monday, index 0) `DayInfo`. -/
theorem primary_week_from_monday (cso : Option Int) (cl pp : Int)
    (lessons : List Lesson) (sd : Int) :
    ((build_week cso cl pp lessons sd).days.map DayInfo.week_label).head?
      = some (build_week cso cl pp lessons sd).primary_week := rfl

/-- C10: with no settings row at all, `get_week_timetable` succeeds,
building the week with the defaults `cycle_length = 10`,
`periods_per_day = 6` and the unconfigured fallback on every day. -/
theorem week_endpoint_defaults_without_settings_row
    (lessons : List Lesson) (sd : Int) :
    get_week_timetable none lessons sd
        = Except.ok (build_week none 10 6 lessons sd) ∧
    (build_week none 10 6 lessons sd).periods_per_day = 6 ∧
    (build_week none 10 6 lessons sd).days.map
        (fun d => (d.cycle_day, d.is_week_a, d.week_label))
      = List.replicate 5 (0, true, "Not configured") :=
  ⟨rfl, rfl, rfl⟩

/-- C3: the write-then-read round trip for `cycle_start_date` fails.  The
`Settings` model has no `cycle_start_date` column, so after
`update_settings` stores `2025-01-27` the subsequent `get_settings` read
observes `none`, and the settings lookup inside `get_week_timetable`
fails with an `AttributeError` instead of observing the stored date. -/
theorem cycle_start_date_not_persisted :
    (get_settings (update_settings none
        { cycle_start_date := some (toordinal 2025 1 27) })).cycle_start_date
      = none ∧
    get_week_timetable
        (update_settings none
          { cycle_start_date := some (toordinal 2025 1 27) })
        [] (toordinal 2025 2 3)
      = Except.error
          "AttributeError: Settings object has no attribute cycle_start_date" :=
  ⟨rfl, rfl⟩

/-- C2: for every requested date, `build_week` normalises backward to
Monday (`week_start = requested - weekday requested`, never forward:
`week_start ≤ requested` and `weekday week_start = 0`), sets
`week_end = week_start + 4`, and returns exactly 5 days with dates
`week_start .. week_start + 4` whose weekday indices are Monday..Friday
(0..4). -/
theorem build_week_five_days (cso : Option Int) (cl pp : Int)
    (lessons : List Lesson) (sd : Int) :
    (build_week cso cl pp lessons sd).week_start = sd - weekday sd ∧
    (build_week cso cl pp lessons sd).week_start ≤ sd ∧
    weekday (build_week cso cl pp lessons sd).week_start = 0 ∧
    (build_week cso cl pp lessons sd).week_end
        = (build_week cso cl pp lessons sd).week_start + 4 ∧
    (build_week cso cl pp lessons sd).days.map DayInfo.date
        = [sd - weekday sd, sd - weekday sd + 1, sd - weekday sd + 2,
            sd - weekday sd + 3, sd - weekday sd + 4] ∧
    (build_week cso cl pp lessons sd).days.map DayInfo.weekday
        = [0, 1, 2, 3, 4] := by
  rw [build_week_eq]
  refine ⟨rfl, ?_, weekday_monday sd, rfl, ?_, ?_⟩
  · have := weekday_nonneg sd
    simp only []
    omega
  · simp only [List.map, mkDayInfo_date, List.cons.injEq, and_true]
    push_cast
    omega
  · simp only [List.map, mkDayInfo_weekday, List.cons.injEq, and_true]
    simp only [weekday_emod]
    push_cast
    omega

/-- The date-`ws + i` group of the sorted week lessons is a permutation of
the plain date filter of the input lessons, for any day of the week
(`i ≤ 4`): the range filter is implied by the date equation. -/
theorem week_lessons_group_perm (lessons : List Lesson) (ws : Int)
    (i : Nat) (hi : i ≤ 4) :
    ((week_lessons_sorted lessons ws).filter
        (fun l => l.date == ws + (i : Int))).Perm
      (lessons.filter fun l => l.date == ws + (i : Int)) := by
  have hperm := (List.perm_insertionSort lessonLE
    (lessons.filter fun l =>
      decide (ws ≤ l.date) && decide (l.date ≤ ws + 4))).filter
    (fun l => l.date == ws + (i : Int))
  rw [List.filter_filter] at hperm
  have heq : (lessons.filter fun a =>
      (a.date == ws + (i : Int))
        && (decide (ws ≤ a.date) && decide (a.date ≤ ws + 4)))
      = lessons.filter fun l => l.date == ws + (i : Int) := by
    refine List.filter_congr ?_
    intro x _
    cases hx : (x.date == ws + (i : Int)) with
    | false => simp
    | true =>
      rw [beq_iff_eq] at hx
      have h1 : decide (ws ≤ x.date) = true := by
        rw [decide_eq_true_eq]; omega
      have h2 : decide (x.date ≤ ws + 4) = true := by
        rw [decide_eq_true_eq]; omega
      simp [h1, h2]
  unfold week_lessons_sorted
  exact heq ▸ hperm

/-- Each date group of the sorted week lessons is sorted by period: the
lexicographic (date, period) order restricted to a single date is the
period order. -/
theorem week_lessons_group_sorted (lessons : List Lesson) (ws : Int)
    (i : Nat) :
    ((week_lessons_sorted lessons ws).filter
        (fun l => l.date == ws + (i : Int))).Pairwise
      (fun a b => a.period ≤ b.period) := by
  have hs : (week_lessons_sorted lessons ws).Pairwise lessonLE := by
    unfold week_lessons_sorted
    exact List.sorted_insertionSort lessonLE _
  have hf : ((week_lessons_sorted lessons ws).filter
      (fun l => l.date == ws + (i : Int))).Pairwise lessonLE :=
    List.Pairwise.sublist (List.filter_sublist _) hs
  refine hf.imp_of_mem ?_
  intro a b ha hb hab
  have ha2 := (List.mem_filter.mp ha).2
  have hb2 := (List.mem_filter.mp hb).2
  rw [beq_iff_eq] at ha2 hb2
  unfold lessonLE at hab
  omega

/-- The content of one assembled day (`i ≤ 4`): its date, the multiset of
its lessons, their period ordering, and the exclusion of out-of-window
lessons. -/
theorem mkDayInfo_day_spec (cso : Option Int) (cl : Int)
    (lessons : List Lesson) (ws : Int) (i : Nat) (hi : i ≤ 4) :
    (mkDayInfo cso cl (week_lessons_sorted lessons ws) ws i).date
        = ws + (i : Int) ∧
    (mkDayInfo cso cl (week_lessons_sorted lessons ws) ws i).lessons.Perm
      (lessons.filter fun l =>
        l.date
          == (mkDayInfo cso cl (week_lessons_sorted lessons ws) ws i).date) ∧
    (mkDayInfo cso cl (week_lessons_sorted lessons ws) ws i).lessons.Pairwise
      (fun a b => a.period ≤ b.period) ∧
    ∀ l ∈ lessons, (l.date < ws ∨ ws + 4 < l.date) →
      l ∉ (mkDayInfo cso cl (week_lessons_sorted lessons ws) ws i).lessons := by
  rw [mkDayInfo_date, mkDayInfo_lessons]
  refine ⟨rfl, week_lessons_group_perm lessons ws i hi,
    week_lessons_group_sorted lessons ws i, ?_⟩
  intro l hl hout hmem
  have h2 := (List.mem_filter.mp hmem).2
  rw [beq_iff_eq] at h2
  omega

/-- C5: every `DayInfo` produced by `build_week` carries exactly the input
lessons dated on that day (all of which lie in the inclusive window
`[week_start, week_start + 4]`), ordered by period ascending (empty when
none matches), and a lesson dated outside the 5-day window belongs to no
day; the assembly is total, so such lessons cause no error. -/
theorem build_week_day_lessons (cso : Option Int) (cl pp : Int)
    (lessons : List Lesson) (sd : Int) (i : Nat) (day : DayInfo)
    (hday : (build_week cso cl pp lessons sd).days[i]? = some day) :
    day.date = sd - weekday sd + (i : Int) ∧
    day.lessons.Perm (lessons.filter fun l => l.date == day.date) ∧
    day.lessons.Pairwise (fun a b => a.period ≤ b.period) ∧
    ∀ l ∈ lessons,
      (l.date < sd - weekday sd ∨ sd - weekday sd + 4 < l.date) →
        l ∉ day.lessons := by
  rw [build_week_eq] at hday
  rcases i with _ | _ | _ | _ | _ | n
  · simp only [List.getElem?_cons_zero, Option.some.injEq] at hday
    subst hday
    exact mkDayInfo_day_spec cso cl lessons (sd - weekday sd) 0 (by omega)
  · simp only [List.getElem?_cons_succ, List.getElem?_cons_zero,
      Option.some.injEq] at hday
    subst hday
    exact mkDayInfo_day_spec cso cl lessons (sd - weekday sd) 1 (by omega)
  · simp only [List.getElem?_cons_succ, List.getElem?_cons_zero,
      Option.some.injEq] at hday
    subst hday
    exact mkDayInfo_day_spec cso cl lessons (sd - weekday sd) 2 (by omega)
  · simp only [List.getElem?_cons_succ, List.getElem?_cons_zero,
      Option.some.injEq] at hday
    subst hday
    exact mkDayInfo_day_spec cso cl lessons (sd - weekday sd) 3 (by omega)
  · simp only [List.getElem?_cons_succ, List.getElem?_cons_zero,
      Option.some.injEq] at hday
    subst hday
    exact mkDayInfo_day_spec cso cl lessons (sd - weekday sd) 4 (by omega)
  · simp at hday

/-- Witness for C5: the Monday day of the demo week carries exactly the
demo lesson dated on that Monday, and the lesson dated outside the window
appears nowhere. -/
theorem build_week_day_lessons_witness :
    ((build_week none 10 6 demoLessons 739281).days[0]? = some demoDay0) ∧
    (demoDay0.date = 739281 - weekday 739281 + ((0 : Nat) : Int) ∧
      demoDay0.lessons.Perm
        (demoLessons.filter fun l => l.date == demoDay0.date) ∧
      demoDay0.lessons.Pairwise (fun a b => a.period ≤ b.period) ∧
      ∀ l ∈ demoLessons,
        (l.date < 739281 - weekday 739281 ∨
            739281 - weekday 739281 + 4 < l.date) →
          l ∉ demoDay0.lessons) :=
  ⟨by decide,
    build_week_day_lessons none 10 6 demoLessons 739281 0 demoDay0
      (by decide)⟩

end TeacherPlanner
